import Mathlib

/-!
Verification development for the AdOps auction repository.

Shallow embedding of:
  - the client-side budget gate of the place_bid tool
    (src/agents/shared/intelligent-agent.ts, placeBidTool);
  - the event-payment safety checks (processEventPayment);
  - the per-agent concurrency coordinator (decideBidStrategy,
    startRefundMonitoring, monitorAuctionEnd, stop and the stop helpers),
    modelled as a step function on an explicit coordinator state;
  - the demo branch of the event-polling endpoint (getDemoEvents);
  - the consumer-side event processing and per-party log split
    (src/app/auction/[adSpotId]/page.tsx);
  - the auction status endpoint (src/app/api/status/route.ts).

Money amounts are embedded as rationals; timestamps as integers
(milliseconds).  JavaScript string rendering (toFixed, toISOString,
template literals for human-readable text) is abstracted: log text is
represented by constructors carrying the interpolated data.
-/

namespace AdOps

/-! ## Budget gate of the place_bid tool (placeBidTool) -/

/-- Outcome of the place_bid tool, mirroring the JSON shapes the tool
returns: overBudget (local budget gate), success, proposalRejected
(HTTP 400, the TooLow protocol rejection), needsNegotiation (HTTP 402),
or a generic failure. -/
inductive BidToolOutcome
  | overBudget (proposedAmount maxAllowedBid totalBudget : ℚ)
  | accepted (currentBid : ℚ)
  | proposalRejected (minimumRequired currentBid : Option ℚ)
  | needsNegotiation (minimumRequired currentBid : Option ℚ)
  | failed
  deriving DecidableEq

/-- What the bid server answers when a request is actually sent:
HTTP 200 success, HTTP 400 rejection (too low), HTTP 402 payment
required, or some other error.  The server itself is outside this
sources of this file; the tool maps each case to an outcome. -/
inductive ServerBidResponse
  | ok (currentBid : ℚ)
  | http400 (minimumToWin currentBid : Option ℚ)
  | http402 (minimumToWin currentBid : Option ℚ)
  | otherFailure
  deriving DecidableEq

/-- Result of one invocation of the place_bid tool: the outcome
returned to the model, and whether an HTTP bid request was submitted
to the server at all. -/
structure PlaceBidResult where
  outcome : BidToolOutcome
  requestSent : Bool
  deriving DecidableEq

/-- The place_bid tool (placeBidTool in intelligent-agent.ts).  The
budget gate `maxAllowedBid = maxBid - 0.08` runs before any request is
sent; only when it passes is the request submitted and the server
response translated. -/
def placeBidTool (maxBid proposedAmount : ℚ) (server : ServerBidResponse) :
    PlaceBidResult :=
  let maxAllowedBid := maxBid - 0.08
  if proposedAmount > maxAllowedBid then
    { outcome := .overBudget proposedAmount maxAllowedBid maxBid
      requestSent := false }
  else
    match server with
    | .ok currentBid => { outcome := .accepted currentBid, requestSent := true }
    | .http400 minimumToWin currentBid =>
        { outcome := .proposalRejected minimumToWin currentBid, requestSent := true }
    | .http402 minimumToWin currentBid =>
        { outcome := .needsNegotiation minimumToWin currentBid, requestSent := true }
    | .otherFailure => { outcome := .failed, requestSent := true }

/-- An outcome is the TooLow classification exactly when it is the
proposalRejected shape. -/
def isTooLowOutcome : BidToolOutcome → Bool
  | .proposalRejected _ _ => true
  | _ => false

/-! ## Event-payment safety checks (processEventPayment) -/

/-- An ad event whose cost the agent is asked to settle
(AdEvent in intelligent-agent.ts). -/
structure AdEvent where
  eventId : String
  type : String
  campaignId : String
  creativeId : String
  timestamp : String
  bidAmount : ℚ
  deriving DecidableEq

/-- Hard safety cap for a single event payment (SAFETY_THRESHOLD). -/
def SAFETY_THRESHOLD : ℚ := 10.0

/-- Result of processEventPayment: whether it reported success, whether
a payment was actually executed, and the wallet balance afterwards. -/
structure PaymentResult where
  success : Bool
  executed : Bool
  newBalance : ℚ
  deriving DecidableEq

/-- processEventPayment: blocks when the amount exceeds the agent max
bid, then when it exceeds the safety threshold, then when the wallet
balance is insufficient; only if all three checks pass is the payment
executed.  The code never mutates the balance (the execution is a
simulated transaction), so newBalance is the input balance in every
branch. -/
def processEventPayment (maxBid balance : ℚ) (event : AdEvent) : PaymentResult :=
  let fairAmount := event.bidAmount
  if fairAmount > maxBid then
    { success := false, executed := false, newBalance := balance }
  else if fairAmount > SAFETY_THRESHOLD then
    { success := false, executed := false, newBalance := balance }
  else if balance < fairAmount then
    { success := false, executed := false, newBalance := balance }
  else
    { success := true, executed := true, newBalance := balance }

/-! ## Agent coordinator (decideBidStrategy, monitors, stop)

The per-agent mutable fields of IntelligentBiddingAgent that the
concurrency contract is about, plus explicit counters for the
resources the class manages through timers:

  - refundMon / endMon count the live setInterval instances held in
    monitoringInterval / auctionEndMonitoringInterval (null = 0);
  - running counts decideBidStrategy invocations currently executing;
  - scheduled counts callbacks queued through setTimeout / setImmediate
    that will invoke decideBidStrategy when they fire.

JavaScript is single threaded, but setInterval does not wait for an
async callback to finish and every await is a suspension point, so
segments of distinct callback executions interleave in the program.
This coarse model SERIALIZES callbacks: each AgentEv below bundles one
complete callback execution - its synchronous segments together with
all its await resolutions - into a single atomic step.  It therefore
matches the program only under the scheduling assumption that no two
callback executions overlap (each poll and each decision call chain
finishes before the next timer event fires).  Theorems proved on this
model carry that proviso; the FineSt machine further below models the
program at await granularity, with every pending continuation
explicit, and the counterexample traces there show which claims fail
once callbacks overlap. -/

structure AgentSt where
  active : Bool
  reasoning : Bool
  pending : Bool
  refundMon : Nat
  endMon : Nat
  running : Nat
  scheduled : Nat
  deriving DecidableEq

/-- startRefundMonitoring under the serialized-call assumption:
returns at once when a monitoring interval already exists, otherwise
installs one.  In the source the null guard (line 1233) and the
setInterval assignment (line 1243) are separated by the
baseline-balance await with no re-check, so two OVERLAPPING calls can
both pass the guard and both install; the FineSt machine models that
separation and the leaked second interval. -/
def startRefundMonitoring (s : AgentSt) : AgentSt :=
  if s.refundMon ≠ 0 then s else { s with refundMon := 1 }

/-- stopRefundMonitoring: clears the monitoring interval when one
exists, otherwise does nothing. -/
def stopRefundMonitoring (s : AgentSt) : AgentSt :=
  if s.refundMon ≠ 0 then { s with refundMon := 0 } else s

/-- monitorAuctionEnd (the part that installs the interval): returns at
once when already monitoring, otherwise installs the interval. -/
def monitorAuctionEnd (s : AgentSt) : AgentSt :=
  if s.endMon ≠ 0 then s else { s with endMon := 1 }

/-- stopAuctionEndMonitoring: clears the auction-end interval when one
exists, otherwise does nothing. -/
def stopAuctionEndMonitoring (s : AgentSt) : AgentSt :=
  if s.endMon ≠ 0 then { s with endMon := 0 } else s

/-- stop(): sets isActive to false, then stops both monitors. -/
def stopAgent (s : AgentSt) : AgentSt :=
  stopAuctionEndMonitoring (stopRefundMonitoring { s with active := false })

/-- What one tick of the auction-end monitor observes in the ledger:
the ended flag, the current winner, and the url of the winner ad image
(state.winnerAdImage?.url). -/
structure LedgerObs where
  auctionEnded : Bool
  currentWinner : Option String
  winnerAdImageUrl : Option String
  deriving DecidableEq

/-- One serialized tick of the auction-end monitor interval for agent
`self` (the whole callback, status await included, as one step).  When
no interval is live the tick cannot happen (identity).  When the
observation shows the auction ended with this agent winning and no ad
image generated yet, the tick stops the refund monitor, stops the
auction-end monitor and starts creative generation (the returned
Bool).  isActive is NOT cleared here: the source clears it only after
the whole creative run completes (line 1424, event creativeDone below)
and never on its error path.  Any other observation changes
nothing. -/
def auctionEndTick (self : String) (obs : LedgerObs) (s : AgentSt) :
    AgentSt × Bool :=
  if s.endMon = 0 then (s, false)
  else if obs.auctionEnded = true ∧ obs.currentWinner = some self ∧
      obs.winnerAdImageUrl = none then
    (stopAuctionEndMonitoring (stopRefundMonitoring s), true)
  else (s, false)

/-- Runs the auction-end monitor over a list of successive ledger
observations, counting how many ticks triggered creative generation. -/
def runEndTicks (self : String) (s : AgentSt) : List LedgerObs → AgentSt × Nat
  | [] => (s, 0)
  | obs :: rest =>
      let t := auctionEndTick self obs s
      let r := runEndTicks self t.1 rest
      (r.1, (if t.2 then 1 else 0) + r.2)

/-- The events that advance a coordinator:

  - refundOutbid: the refund-monitor interval fires, sees a balance
    increase, queries the ledger and finds the agent is no longer the
    winner (startRefundMonitoring, lines 1251-1308);
  - refundSelfStop: the interval fires while isActive is false and
    clears itself (lines 1244-1247);
  - decisionStart: a queued setTimeout / setImmediate callback fires
    and, if still active, enters decideBidStrategy, whose prefix sets
    refundPending := false, isInAIReasoning := true and restarts the
    refund monitor (lines 958-968, 1223-1227, 1303-1307);
  - decisionComplete: the finally block of decideBidStrategy (lines
    1211-1229): clears isInAIReasoning; if a refund arrived during the
    run and the agent is still active, clears refundPending and queues
    exactly one immediate re-evaluation;
  - endTick: one tick of the auction-end monitor;
  - deactivate: the mid-decision exit paths (withdrawal accepted with
    auctionEnded, or HTTP 410): isActive := false and the refund
    monitor stopped (lines 1152-1158, 1206-1210);
  - creativeDone: the creative-generation run started by a triggering
    end tick completes, and only then clears isActive (line 1424);
  - stopCalled: an external stop(). -/
inductive AgentEv
  | refundOutbid
  | refundSelfStop
  | decisionStart
  | decisionComplete
  | endTick (obs : LedgerObs)
  | deactivate
  | creativeDone
  | stopCalled

/-- The atomic step function of the coordinator model. -/
def step (self : String) (s : AgentSt) : AgentEv → AgentSt
  | .refundOutbid =>
      if s.refundMon = 0 then s
      else
        let s1 := stopRefundMonitoring s
        if s.reasoning then { s1 with pending := true }
        else { s1 with scheduled := s1.scheduled + 1 }
  | .refundSelfStop =>
      if s.refundMon ≠ 0 ∧ s.active = false then stopRefundMonitoring s else s
  | .decisionStart =>
      if s.scheduled = 0 then s
      else
        let s1 := { s with scheduled := s.scheduled - 1 }
        if s1.active then
          startRefundMonitoring
            { s1 with running := s1.running + 1, reasoning := true,
                      pending := false }
        else s1
  | .decisionComplete =>
      if s.running = 0 then s
      else
        let s1 := { s with running := s.running - 1, reasoning := false }
        if s1.pending ∧ s1.active then
          { s1 with pending := false, scheduled := s1.scheduled + 1 }
        else s1
  | .endTick obs => (auctionEndTick self obs s).1
  | .deactivate =>
      if s.running ≠ 0 then stopRefundMonitoring { s with active := false }
      else s
  | .creativeDone => { s with active := false }
  | .stopCalled => stopAgent s

/-- The state right after start(adSpotId): monitorAuctionEnd installed
the end monitor, and the first decideBidStrategy call is running with
the refund monitor installed. -/
def initialAgentState : AgentSt :=
  { active := true, reasoning := true, pending := false,
    refundMon := 1, endMon := 1, running := 1, scheduled := 0 }

/-- States a coordinator can reach from start(). -/
inductive Reachable (self : String) : AgentSt → Prop
  | init : Reachable self initialAgentState
  | next {s : AgentSt} (ev : AgentEv) :
      Reachable self s → Reachable self (step self s ev)

/-- Inductive invariant of the serialized coordinator: at most one
decision task (running or queued); the isInAIReasoning flag tracks
exactly the running decision; each monitor has at most one interval; a
live refund monitor excludes a queued decision start; a pending refund
flag excludes a live refund monitor. -/
def AgentInv (s : AgentSt) : Prop :=
  s.running + s.scheduled ≤ 1 ∧
  (s.reasoning = true ↔ s.running = 1) ∧
  s.refundMon ≤ 1 ∧
  s.endMon ≤ 1 ∧
  (s.refundMon ≠ 0 → s.scheduled = 0) ∧
  (s.pending = true → s.refundMon = 0)

lemma agentInv_initial : AgentInv initialAgentState := by
  simp [AgentInv, initialAgentState]

lemma agentInv_step (self : String) (s : AgentSt) (ev : AgentEv)
    (h : AgentInv s) : AgentInv (step self s ev) := by
  obtain ⟨h1, h2, h3, h4, h5, h6⟩ := h
  have hr1 : s.reasoning = true → s.running = 1 := h2.mp
  have hr0 : s.reasoning = false → s.running = 0 := by
    intro hx
    by_contra hne
    have hone : s.running = 1 := by omega
    have htr := h2.mpr hone
    rw [hx] at htr
    exact Bool.false_ne_true htr
  cases ev <;>
    simp only [step, stopRefundMonitoring, startRefundMonitoring,
      stopAuctionEndMonitoring, stopAgent, auctionEndTick, AgentInv] <;>
    repeat' split
  all_goals refine ⟨?_, ?_, ?_, ?_, ?_, ?_⟩
  all_goals first
    | omega
    | assumption
    | (simp_all; done)
    | (simp_all; omega)

lemma agentInv_of_reachable {self : String} {s : AgentSt}
    (h : Reachable self s) : AgentInv s := by
  induction h with
  | init => exact agentInv_initial
  | next ev _ ih => exact agentInv_step self _ ev ih

/-! ## Fine-grained coordinator semantics (await granularity)

The faithful interleaving model.  A step is one synchronous segment of
the source: the code from a callback entry or an await resolution down
to the next await, return or function end.  setInterval fires
regardless of whether earlier callback executions are still awaiting,
so several executions of the same interval can be in flight at once;
every pending continuation is an explicit Task.  Await resolutions
whose continuation performs no state change before the next suspension
are folded into the resolving step. -/

/-- One pending continuation of the coordinator:

  - refundAwaitBalance i: an execution of refund interval i passed the
    isActive check and awaits getUSDCBalance (line 1249);
  - refundAwaitStatus i bal: that execution read balance bal, found it
    above the closure variable previousBalance, and awaits the status
    fetch (line 1263);
  - decisionAwaitBalance: a decideBidStrategy run has done its
    synchronous prefix (refundPending := false,
    isInAIReasoning := true, lines 961-962) and awaits its balance
    (line 964);
  - baselineAwait: its startRefundMonitoring call passed the null
    guard (line 1233) and awaits the baseline balance (line 1240) -
    the interval is NOT installed yet;
  - decisionBody: the remainder of the decision run (the AI call
    chain) up to the finally block;
  - scheduledDecision: a setTimeout or setImmediate callback queued to
    re-enter decideBidStrategy (lines 1223, 1303);
  - endAwaitStatus i: an execution of auction-end interval i awaits
    its status fetch (line 1339);
  - creativeRun: a creative-generation call chain (line 1411) is in
    flight. -/
inductive Task
  | refundAwaitBalance (i : Nat)
  | refundAwaitStatus (i : Nat) (bal : ℚ)
  | decisionAwaitBalance
  | baselineAwait
  | decisionBody
  | scheduledDecision
  | endAwaitStatus (i : Nat)
  | creativeRun
  deriving DecidableEq

/-- The closure variable previousBalance of refund interval i (each
installed interval owns one); newest binding first. -/
def lookupBal (l : List (Nat × ℚ)) (i : Nat) : ℚ :=
  match l.find? (fun p => p.1 == i) with
  | some p => p.2
  | none => 0

def setBal (l : List (Nat × ℚ)) (i : Nat) (b : ℚ) : List (Nat × ℚ) :=
  (i, b) :: l

/-- Fine-grained coordinator state.  monitoringField / endField hold
the interval handle currently stored in the object field (the only one
a stop can clear); refundLive / endLive list every installed,
not-yet-cleared interval - an install that overwrites a non-null field
leaks the previous interval, which keeps ticking. -/
structure FineSt where
  active : Bool
  reasoning : Bool
  pending : Bool
  monitoringField : Option Nat
  endField : Option Nat
  refundLive : List Nat
  endLive : List Nat
  prevBalances : List (Nat × ℚ)
  nextId : Nat
  tasks : List Task
  genStarts : Nat
  deriving DecidableEq

/-- stopRefundMonitoring at fine granularity: clears the interval the
field currently holds (and only that one). -/
def clearRefundField (s : FineSt) : FineSt :=
  match s.monitoringField with
  | some j => { s with refundLive := s.refundLive.erase j, monitoringField := none }
  | none => s

/-- stopAuctionEndMonitoring at fine granularity. -/
def clearEndField (s : FineSt) : FineSt :=
  match s.endField with
  | some j => { s with endLive := s.endLive.erase j, endField := none }
  | none => s

/-- The observable occurrences that drive the fine machine.  Each is
one synchronous segment; balance values and status observations are
environment data delivered at the corresponding await resolution:

  - refundTick i: interval i fires; the callback checks isActive
    (self-stopping when false, lines 1244-1247) and otherwise suspends
    on the balance await;
  - refundBalanceResolved i bal: the balance await of one execution of
    interval i resolves to bal; below the closure previousBalance the
    segment just updates it, above it suspends on the status fetch;
  - refundStatusResolved i bal winnerSelf: the status fetch resolves;
    still-winning updates the baseline; otherwise the outbid segment
    of lines 1279-1317 runs: stopRefundMonitoring, then either
    refundPending := true (isInAIReasoning) or a setTimeout queue, and
    previousBalance := bal;
  - scheduledFire: a queued callback runs; it re-checks isActive and
    only then enters decideBidStrategy (sync prefix, then the balance
    await);
  - decisionBalanceResolved: the decision balance await resolves and
    startRefundMonitoring runs its synchronous null guard: a non-null
    field skips installation, a null field suspends on the baseline
    await;
  - baselineResolved bal: the baseline await resolves and the segment
    installs a fresh interval, overwriting the field (line 1243);
  - decisionCompletes: the finally block (lines 1211-1229);
  - endTick i / endStatusResolved i ended winnerSelf hasImage: an
    auction-end interval execution starts / its status fetch resolves
    (the winning observation runs lines 1350-1418: both stops and the
    creative-generation start);
  - creativeCompletes / creativeFails: the creative run finishes;
    isActive clears only on completion (line 1424);
  - deactivateInDecision: the mid-decision exit segments (lines
    1152-1158, 1206-1210);
  - stopCall: an external stop() (lines 1464-1469). -/
inductive Act
  | refundTick (i : Nat)
  | refundBalanceResolved (i : Nat) (bal : ℚ)
  | refundStatusResolved (i : Nat) (bal : ℚ) (winnerSelf : Bool)
  | scheduledFire
  | decisionBalanceResolved
  | baselineResolved (bal : ℚ)
  | decisionCompletes
  | endTick (i : Nat)
  | endStatusResolved (i : Nat) (ended winnerSelf hasImage : Bool)
  | creativeCompletes
  | creativeFails
  | deactivateInDecision
  | stopCall

/-- One synchronous segment of the fine machine; occurrences whose
precondition fails (a dead interval firing, a resolution with no
matching pending await) are the identity. -/
def fineStep (s : FineSt) : Act → FineSt
  | .refundTick i =>
      if i ∈ s.refundLive then
        if s.active then { s with tasks := .refundAwaitBalance i :: s.tasks }
        else clearRefundField s
      else s
  | .refundBalanceResolved i bal =>
      if Task.refundAwaitBalance i ∈ s.tasks then
        let s1 := { s with tasks := s.tasks.erase (.refundAwaitBalance i) }
        if bal > lookupBal s1.prevBalances i then
          { s1 with tasks := .refundAwaitStatus i bal :: s1.tasks }
        else { s1 with prevBalances := setBal s1.prevBalances i bal }
      else s
  | .refundStatusResolved i bal winnerSelf =>
      if Task.refundAwaitStatus i bal ∈ s.tasks then
        let s1 := { s with tasks := s.tasks.erase (.refundAwaitStatus i bal) }
        if winnerSelf then
          { s1 with prevBalances := setBal s1.prevBalances i bal }
        else
          let s2 := clearRefundField s1
          let s3 :=
            if s2.reasoning then { s2 with pending := true }
            else { s2 with tasks := .scheduledDecision :: s2.tasks }
          { s3 with prevBalances := setBal s3.prevBalances i bal }
      else s
  | .scheduledFire =>
      if Task.scheduledDecision ∈ s.tasks then
        let s1 := { s with tasks := s.tasks.erase .scheduledDecision }
        if s1.active then
          { s1 with pending := false, reasoning := true,
                    tasks := .decisionAwaitBalance :: s1.tasks }
        else s1
      else s
  | .decisionBalanceResolved =>
      if Task.decisionAwaitBalance ∈ s.tasks then
        let s1 := { s with tasks := s.tasks.erase .decisionAwaitBalance }
        match s1.monitoringField with
        | some _ => { s1 with tasks := .decisionBody :: s1.tasks }
        | none => { s1 with tasks := .baselineAwait :: s1.tasks }
      else s
  | .baselineResolved bal =>
      if Task.baselineAwait ∈ s.tasks then
        let s1 := { s with tasks := s.tasks.erase .baselineAwait }
        { s1 with
          prevBalances := setBal s1.prevBalances s1.nextId bal
          refundLive := s1.nextId :: s1.refundLive
          monitoringField := some s1.nextId
          nextId := s1.nextId + 1
          tasks := .decisionBody :: s1.tasks }
      else s
  | .decisionCompletes =>
      if Task.decisionBody ∈ s.tasks then
        let s1 := { s with tasks := s.tasks.erase .decisionBody,
                           reasoning := false }
        if s1.pending ∧ s1.active then
          { s1 with pending := false, tasks := .scheduledDecision :: s1.tasks }
        else s1
      else s
  | .endTick i =>
      if i ∈ s.endLive then { s with tasks := .endAwaitStatus i :: s.tasks }
      else s
  | .endStatusResolved i ended winnerSelf hasImage =>
      if Task.endAwaitStatus i ∈ s.tasks then
        let s1 := { s with tasks := s.tasks.erase (.endAwaitStatus i) }
        if ended && winnerSelf && !hasImage then
          let s2 := clearEndField (clearRefundField s1)
          { s2 with tasks := .creativeRun :: s2.tasks,
                    genStarts := s2.genStarts + 1 }
        else s1
      else s
  | .creativeCompletes =>
      if Task.creativeRun ∈ s.tasks then
        { s with tasks := s.tasks.erase .creativeRun, active := false }
      else s
  | .creativeFails =>
      if Task.creativeRun ∈ s.tasks then
        { s with tasks := s.tasks.erase .creativeRun }
      else s
  | .deactivateInDecision =>
      if Task.decisionBody ∈ s.tasks then
        clearRefundField { s with active := false }
      else s
  | .stopCall => clearEndField (clearRefundField { s with active := false })

def runFine (s : FineSt) (acts : List Act) : FineSt :=
  acts.foldl fineStep s

/-- Tasks that are stages of one running decideBidStrategy call chain
(one running decision occupies exactly one of these at a time). -/
def isDecisionStage : Task → Bool
  | .decisionAwaitBalance => true
  | .baselineAwait => true
  | .decisionBody => true
  | _ => false

/-- Number of decideBidStrategy runs currently executing. -/
def runningDecisions (s : FineSt) : Nat :=
  s.tasks.countP isDecisionStage

/-- Number of decision cycles queued but not yet started. -/
def queuedDecisions (s : FineSt) : Nat :=
  s.tasks.countP (fun t => t == Task.scheduledDecision)

/-- The fine state right after start(adSpotId): the auction-end
interval 0 is installed (monitorAuctionEnd is synchronous) and the
first decideBidStrategy call has run its prefix and awaits its
balance; no refund monitor exists yet. -/
def fineStart : FineSt :=
  { active := true, reasoning := true, pending := false,
    monitoringField := none, endField := some 0,
    refundLive := [], endLive := [0],
    prevBalances := [], nextId := 1,
    tasks := [.decisionAwaitBalance], genStarts := 0 }

/-- A schedule from fineStart in which the first decision completes
and then two executions of the refund interval overlap: interval 1
fires twice before either balance fetch resolves, both executions
compare 5.5 against the same stale previousBalance 5, both find the
agent outbid, and each queues a decision cycle; both queued cycles
then start (isActive is still true at each check). -/
def overlappingPollActs : List Act :=
  [.decisionBalanceResolved,
   .baselineResolved 5,
   .decisionCompletes,
   .refundTick 1,
   .refundTick 1,
   .refundBalanceResolved 1 6,
   .refundBalanceResolved 1 6,
   .refundStatusResolved 1 6 false,
   .refundStatusResolved 1 6 false,
   .scheduledFire,
   .scheduledFire]

/-- Continuing overlappingPollActs: the two concurrent decision runs
both reach startRefundMonitoring while the field is null, both pass
the guard, and both install - the first interval is leaked when the
second install overwrites the field. -/
def overlappingInstallActs : List Act :=
  overlappingPollActs ++
    [.decisionBalanceResolved,
     .decisionBalanceResolved,
     .baselineResolved 6,
     .baselineResolved 6]

/-- A schedule from fineStart in which stop() lands while the first
decision awaits its balance: the resumed decision passes the
startRefundMonitoring null guard (no isActive re-check) and installs
the refund interval in the stopped state. -/
def stopThenResumeActs : List Act :=
  [.stopCall,
   .decisionBalanceResolved,
   .baselineResolved 5]

/-- A schedule from fineStart in which the auction-end interval fires
twice before the first status fetch resolves; both fetches observe the
auction ended, this agent winning and no ad image (creative generation
has not produced one yet), so both resolutions trigger a creative
generation run. -/
def doubleTriggerActs : List Act :=
  [.endTick 0,
   .endTick 0,
   .endStatusResolved 0 true true false,
   .endStatusResolved 0 true true false]

/-- A fine state with a decision run in flight (isInAIReasoning true)
whose refund interval 1 has detected a balance increase and awaits the
status fetch. -/
def outbidMidDecisionSt : FineSt :=
  { active := true, reasoning := true, pending := false,
    monitoringField := some 1, endField := some 0,
    refundLive := [1], endLive := [0],
    prevBalances := [(1, 5)], nextId := 2,
    tasks := [.refundAwaitStatus 1 6, .decisionBody],
    genStarts := 0 }

/-- A fine state whose decision body is about to complete with a
pending refund recorded (the refund monitor stopped itself when it
detected the outbid). -/
def pendingCompletionSt : FineSt :=
  { active := true, reasoning := true, pending := true,
    monitoringField := none, endField := some 0,
    refundLive := [], endLive := [0],
    prevBalances := [(1, 5)], nextId := 2,
    tasks := [.decisionBody], genStarts := 0 }

/-- An idle fine state in which an auction-end status fetch is in
flight while both monitors are installed. -/
def endFetchPendingSt : FineSt :=
  { active := true, reasoning := false, pending := false,
    monitoringField := some 1, endField := some 0,
    refundLive := [1], endLive := [0],
    prevBalances := [(1, 5)], nextId := 2,
    tasks := [.endAwaitStatus 0], genStarts := 0 }

/-- A stopped fine state with one queued decision callback. -/
def stoppedQueuedSt : FineSt :=
  { active := false, reasoning := false, pending := false,
    monitoringField := none, endField := none,
    refundLive := [], endLive := [],
    prevBalances := [], nextId := 2,
    tasks := [.scheduledDecision], genStarts := 0 }

/-- A stopped fine state in which a decision reinstalled refund
interval 1 after stop() (the state stopThenResumeActs reaches, with
the decision body finished). -/
def stoppedReinstalledSt : FineSt :=
  { active := false, reasoning := false, pending := false,
    monitoringField := some 1, endField := none,
    refundLive := [1], endLive := [],
    prevBalances := [(1, 5)], nextId := 2,
    tasks := [], genStarts := 0 }

/-- A fine state with a decision run awaiting its balance while the
refund interval 1 is already installed (so startRefundMonitoring must
be a no-op). -/
def guardedInstallSt : FineSt :=
  { active := true, reasoning := true, pending := false,
    monitoringField := some 1, endField := some 0,
    refundLive := [1], endLive := [0],
    prevBalances := [(1, 5)], nextId := 2,
    tasks := [.decisionAwaitBalance], genStarts := 0 }

/-! ## Event-polling endpoint, demo branch (getDemoEvents)

The GET events route parses an optional `since` query parameter and,
for the demo ad spot, serves getDemoEvents.  An event is kept when it
is strictly newer than `since` (when given) and not in the future.
Only the fields the filter and the consumers look at are modelled
(type, agentId, timestamp); timestamps are milliseconds. -/

structure DemoEvent where
  type : String
  agentId : Option String
  timestamp : ℤ
  deriving DecidableEq

/-- The fixed demo script: event type, agentId (none for the shared
lifecycle events keyed by `winner`), and offset in ms from the demo
start time. -/
def demoEventSpecs : List (String × Option String × ℤ) :=
  [("agent_started", some "IceCo", 1000),
   ("agent_started", some "FizzUp", 2000),
   ("scraping_started", some "IceCo", 5000),
   ("scraping_completed", some "IceCo", 8000),
   ("analytics_payment", some "IceCo", 10000),
   ("analytics_received", some "IceCo", 12000),
   ("analysis_started", some "IceCo", 14000),
   ("analysis_completed", some "IceCo", 18000),
   ("thinking", some "IceCo", 20000),
   ("bid_placed", some "IceCo", 22000),
   ("reflection", some "IceCo", 24000),
   ("thinking", some "FizzUp", 27000),
   ("bid_placed", some "FizzUp", 30000),
   ("refund", some "IceCo", 31000),
   ("reflection", some "FizzUp", 33000),
   ("thinking", some "IceCo", 36000),
   ("bid_placed", some "IceCo", 39000),
   ("refund", some "FizzUp", 40000),
   ("withdrawal", some "FizzUp", 43000),
   ("auction_ended", none, 45000),
   ("image_generation_update", some "IceCo", 50000),
   ("ad_image_ready", none, 52000)]

/-- All demo events for a request served at time `now`: the demo
starts one minute before now. -/
def allDemoEvents (now : ℤ) : List DemoEvent :=
  demoEventSpecs.map (fun sp =>
    { type := sp.1, agentId := sp.2.1, timestamp := (now - 60000) + sp.2.2 })

/-- getDemoEvents: filter by the optional watermark (strictly newer
events only) and drop events still in the future. -/
def getDemoEvents (now : ℤ) (since : Option ℤ) : List DemoEvent :=
  (allDemoEvents now).filter (fun e =>
    (match since with
     | some s => decide (s < e.timestamp)
     | none => true) && decide (e.timestamp ≤ now))

/-! ## Auction status endpoint (src/app/api/status/route.ts) -/

/-- One entry of the bid history as the status route returns it. -/
structure BidHistEntry where
  agentId : String
  amount : ℚ
  timestamp : String
  txHash : String
  thinking : Option String := none
  strategy : Option String := none
  reasoning : Option String := none
  reflection : Option String := none
  deriving DecidableEq

/-- The stored auction record for an ad spot (the shape getAdSpotRecord
yields, as the route reads it).  auctionStartTime is in ms. -/
structure AdSpotRecord where
  currentBid : ℚ
  currentWinner : Option String
  auctionStartTime : ℤ
  auctionEnded : Option Bool
  winnerAdImage : Option String
  bidHistory : List BidHistEntry
  deriving DecidableEq

/-- The JSON body of a successful status response. -/
structure StatusResponse where
  adSpotId : String
  currentBid : Option ℚ
  currentWinner : Option String
  timeRemaining : Option ℤ
  auctionEnded : Bool
  winnerAdImage : Option String
  bidHistory : List BidHistEntry
  deriving DecidableEq

/-- Status route result: a 400 validation error or a 200 body. -/
inductive StatusResult
  | validationError (httpStatus : Nat)
  | ok (resp : StatusResponse)
  deriving DecidableEq

/-- A forty-character run of one hex digit, as built by
prefixing 0x to a repeated hex digit in the demo payloads. -/
def mockTxHash (c : Char) : String :=
  "0x" ++ String.mk (List.replicate 40 c)

/-- The fixed response for the demo ad spot.  ISO date rendering of
the bid timestamps is abstracted to the numeric value in ms. -/
def demoStatusResponse (now : ℤ) : StatusResponse :=
  { adSpotId := "demo-spot-1"
    currentBid := some 1.25
    currentWinner := some "IceCo"
    timeRemaining := some 300
    auctionEnded := false
    winnerAdImage := some "/water-ad-demo.png"
    bidHistory :=
      [{ agentId := "IceCo", amount := 0.50, timestamp := toString (now - 40000),
         txHash := mockTxHash 'a',
         reflection := some "Bid successfully placed at $0.50. Monitoring for competitor response." },
       { agentId := "FizzUp", amount := 0.75, timestamp := toString (now - 30000),
         txHash := mockTxHash 'b',
         reflection := some "Successfully outbid competitor. Current leading bid is $0.75." },
       { agentId := "IceCo", amount := 1.25, timestamp := toString (now - 20000),
         txHash := mockTxHash 'd',
         reflection := some "FizzUp has outbid us at $0.75. Increasing our bid to $1.25." }] }

/-- The empty state the route returns when no record exists for the
requested ad spot. -/
def emptyStatusResponse (adSpotId : String) : StatusResponse :=
  { adSpotId := adSpotId, currentBid := none, currentWinner := none,
    timeRemaining := none, auctionEnded := false, winnerAdImage := none,
    bidHistory := [] }

/-- The GET status route.  `adSpotId` is the query parameter, `lookup`
the result of getAdSpotRecord, `durationMs` the AUCTION_DURATION_MS
constant and `now` the server clock in ms.  Math.floor on a positive
divisor is integer floor division. -/
def statusGET (adSpotId : Option String) (lookup : Option AdSpotRecord)
    (durationMs now : ℤ) : StatusResult :=
  match adSpotId with
  | none => .validationError 400
  | some id =>
      if id = "demo-spot-1" then .ok (demoStatusResponse now)
      else
        match lookup with
        | none => .ok (emptyStatusResponse id)
        | some r =>
            let auctionEndTime := r.auctionStartTime + durationMs
            let timeRemaining := max 0 ((auctionEndTime - now).fdiv 1000)
            .ok
              { adSpotId := id
                currentBid := some r.currentBid
                currentWinner := r.currentWinner
                timeRemaining := some timeRemaining
                auctionEnded := r.auctionEnded.getD false
                winnerAdImage := r.winnerAdImage
                bidHistory := r.bidHistory }

/-! ## Auction page consumer (src/app/auction/[adSpotId]/page.tsx)

The page keeps a message list, the current bid, and a set of seen
event keys.  JavaScript quirks that the code relies on are modelled
explicitly: `a || b` falls back on empty strings as well as on absent
values, `x === y` on two absent values is true, and template
interpolation of an absent value renders the text undefined. -/

/-- JavaScript `a || b` for an optional string: falls back when the
value is absent or empty. -/
def jsOr (a : Option String) (b : String) : String :=
  match a with
  | some s => if s = "" then b else s
  | none => b

/-- JavaScript `===` on two possibly-absent strings: two absent values
compare equal. -/
def jsEq (a b : Option String) : Bool :=
  match a, b with
  | some x, some y => x == y
  | none, none => true
  | _, _ => false

/-- JavaScript truthiness of an optional string. -/
def jsTruthyStr (a : Option String) : Bool :=
  match a with
  | some s => s ≠ ""
  | none => false

/-- JavaScript truthiness of an optional number (zero is falsy). -/
def jsTruthyQ (a : Option ℚ) : Bool :=
  match a with
  | some q => q ≠ 0
  | none => false

/-- Template interpolation of a possibly-absent string. -/
def jsInterp (a : Option String) : String :=
  a.getD "undefined"

/-- A message of the page timeline (interface StreamingMessage).
`winner` holds the agentId of the Winner object. -/
structure StreamingMessage where
  id : String
  type : String
  agentId : Option String := none
  timestamp : String
  thinking : Option String := none
  strategy : Option String := none
  proposedAmount : Option ℚ := none
  amount : Option ℚ := none
  transactionHash : Option String := none
  reflection : Option String := none
  refundAmount : Option ℚ := none
  reasoning : Option String := none
  winner : Option String := none
  finalBid : Option ℚ := none
  endReason : Option String := none
  isLoading : Bool := false
  imageUrl : Option String := none
  status : Option String := none
  message : Option String := none
  taskId : Option String := none
  deriving DecidableEq

/-- A polled event as the page reads it (the fields processEvent
touches).  `winner` holds winner.agentId. -/
structure PageEvent where
  type : String
  agentId : Option String := none
  timestamp : String
  transactionHash : Option String := none
  thinking : Option String := none
  strategy : Option String := none
  proposedAmount : Option ℚ := none
  amount : Option ℚ := none
  reflection : Option String := none
  reasoning : Option String := none
  winner : Option String := none
  finalBid : Option ℚ := none
  reason : Option String := none
  imageUrl : Option String := none
  status : Option String := none
  message : Option String := none
  taskId : Option String := none
  deriving DecidableEq

/-- The page state touched by processEvent. -/
structure ConsumerState where
  seenEventIds : List String
  messages : List StreamingMessage
  currentBid : Option ℚ
  deriving DecidableEq

def emptyConsumerState : ConsumerState :=
  { seenEventIds := [], messages := [], currentBid := none }

/-- The deduplication key built by processEvent:
type-agentId-timestamp-transactionHash, with `system` replacing an
absent agentId and the wall clock Date.now() replacing an absent
transaction hash. -/
def eventKey (now : ℤ) (e : PageEvent) : String :=
  e.type ++ "-" ++ jsOr e.agentId "system" ++ "-" ++ e.timestamp ++ "-" ++
    jsOr e.transactionHash (toString now)

/-- The switch body of processEvent, run only for unseen keys.  Never
touches seenEventIds. -/
def applyEvent (now : ℤ) (e : PageEvent) (s : ConsumerState) : ConsumerState :=
  if e.type = "thinking" then
    { s with messages := s.messages ++
        [{ id := jsInterp e.agentId ++ "-thinking-" ++ toString now,
           type := "thinking", agentId := e.agentId, timestamp := e.timestamp,
           thinking := e.thinking, strategy := e.strategy,
           proposedAmount := e.proposedAmount }] }
  else if e.type = "bid_placed" then
    let bidExists := s.messages.any (fun msg =>
      msg.type == "bid" && jsEq msg.agentId e.agentId &&
        jsEq msg.transactionHash e.transactionHash)
    let withBid :=
      if bidExists then s.messages
      else s.messages ++
        [{ id := jsInterp e.agentId ++ "-bid-" ++ toString now,
           type := "bid", agentId := e.agentId, timestamp := e.timestamp,
           amount := e.amount, transactionHash := e.transactionHash,
           isLoading := true }]
    { s with messages := withBid, currentBid := e.amount }
  else if e.type = "reflection" then
    { s with messages := s.messages.map (fun msg =>
        if msg.type == "bid" && jsEq msg.agentId e.agentId && msg.isLoading then
          { msg with reflection := e.reflection, isLoading := false }
        else msg) }
  else if e.type = "refund" then
    { s with messages := s.messages ++
        [{ id := jsInterp e.agentId ++ "-refund-" ++ toString now,
           type := "refund", agentId := e.agentId, timestamp := e.timestamp,
           refundAmount := e.amount, transactionHash := e.transactionHash }] }
  else if e.type = "withdrawal" then
    { s with messages := s.messages ++
        [{ id := jsInterp e.agentId ++ "-withdrawal-" ++ toString now,
           type := "withdrawal", agentId := e.agentId, timestamp := e.timestamp,
           refundAmount := e.amount, reasoning := e.reasoning,
           transactionHash := e.transactionHash }] }
  else if e.type = "auction_ended" then
    { s with messages := s.messages ++
        [{ id := "auction-ended-" ++ toString now,
           type := "auction_ended", timestamp := e.timestamp,
           winner := e.winner, finalBid := e.finalBid,
           endReason := e.reason }] }
  else if e.type = "ad_image_ready" then
    { s with messages := s.messages ++
        [{ id := "ad-image-ready-" ++ toString now,
           type := "ad_image_ready", timestamp := e.timestamp,
           agentId := e.winner, imageUrl := e.imageUrl }] }
  else if e.type = "image_generation_update" then
    { s with messages := s.messages ++
        [{ id := "image-gen-" ++ toString now,
           type := "image_generation_update", timestamp := e.timestamp,
           agentId := e.agentId, status := e.status, message := e.message,
           imageUrl := e.imageUrl, taskId := e.taskId }] }
  else s

/-- processEvent: skip events whose key was already seen, otherwise
record the key and apply the switch. -/
def processEvent (now : ℤ) (e : PageEvent) (s : ConsumerState) : ConsumerState :=
  let eventId := eventKey now e
  if eventId ∈ s.seenEventIds then s
  else applyEvent now e { s with seenEventIds := eventId :: s.seenEventIds }

/-! ### Terminal log split (iceCoLogs / fizzUpLogs) -/

inductive LogType
  | info
  | success
  | payment
  | error
  | tool
  | thinking
  deriving DecidableEq

/-- The text body of a terminal log entry.  The constructors carry the
data the source interpolates into the human-readable strings; the
string rendering itself (toFixed etc.) is abstracted. -/
inductive LogText
  | thinkingHdr (details : Option String)
  | strategyHdr (details : Option String)
  | proposedBid (amount : ℚ)
  | initiatingPayment (amount : Option ℚ)
  | bidPlaced (amount : Option ℚ)
  | postBidAnalysis (details : Option String)
  | refundReceived (amount : Option ℚ)
  | withdrawing (details : Option String)
  | imageGen (headline : String) (details : Option String)
  | adImageReady
  | auctionEndNote (won : Bool) (endReason : Option String) (finalBid : Option ℚ)
  deriving DecidableEq

structure TerminalLog where
  timestamp : String
  ltype : LogType
  icon : String
  text : LogText
  link : Option String
  deriving DecidableEq

/-- Basescan link attached when a transaction hash is present. -/
def txLink (h : Option String) : Option String :=
  if jsTruthyStr h then
    some ("https://sepolia.basescan.org/tx/" ++ jsInterp h)
  else none

/-- messageToTerminalLog: renders one timeline message into zero or
more terminal log entries, mirroring the switch of the source. -/
def messageToTerminalLog (msg : StreamingMessage) : List TerminalLog :=
  if msg.type = "thinking" then
    [{ timestamp := msg.timestamp, ltype := .thinking, icon := "🧠",
       text := .thinkingHdr msg.thinking, link := none }] ++
    (if jsTruthyStr msg.strategy then
      [{ timestamp := msg.timestamp, ltype := .info, icon := "📋",
         text := .strategyHdr msg.strategy, link := none }]
     else []) ++
    (match msg.proposedAmount with
     | some a =>
        if a ≠ 0 then
          [{ timestamp := msg.timestamp, ltype := .info, icon := "💭",
             text := .proposedBid a, link := none }]
        else []
     | none => [])
  else if msg.type = "bid" then
    [{ timestamp := msg.timestamp, ltype := .payment, icon := "💳",
       text := .initiatingPayment msg.amount, link := none },
     { timestamp := msg.timestamp, ltype := .success, icon := "✓",
       text := .bidPlaced msg.amount, link := txLink msg.transactionHash }] ++
    (if jsTruthyStr msg.reflection then
      [{ timestamp := msg.timestamp, ltype := .info, icon := "📊",
         text := .postBidAnalysis msg.reflection, link := none }]
     else [])
  else if msg.type = "refund" then
    [{ timestamp := msg.timestamp, ltype := .payment, icon := "💸",
       text := .refundReceived msg.refundAmount,
       link := txLink msg.transactionHash }]
  else if msg.type = "withdrawal" then
    [{ timestamp := msg.timestamp, ltype := .info, icon := "🏳️",
       text := .withdrawing msg.reasoning,
       link := txLink msg.transactionHash }]
  else if msg.type = "image_generation_update" then
    let st := msg.status
    let resolvedType : LogType :=
      if st = some "started" then .info
      else if st = some "progress" then .tool
      else if st = some "completed" then .success
      else if st = some "failed" then .error
      else .info
    let resolvedIcon : String :=
      if st = some "started" then "🎨"
      else if st = some "progress" then "⏳"
      else if st = some "completed" then "✅"
      else if st = some "failed" then "❌"
      else "🎨"
    let headline : String :=
      if st = some "started" then "GENERATING AD IMAGE"
      else if st = some "progress" then "IMAGE GENERATION IN PROGRESS"
      else if st = some "completed" then "AD IMAGE GENERATED"
      else "IMAGE GENERATION FAILED"
    [{ timestamp := msg.timestamp, ltype := resolvedType,
       icon := resolvedIcon, text := .imageGen headline msg.message,
       link := none }]
  else if msg.type = "ad_image_ready" then
    [{ timestamp := msg.timestamp, ltype := .success, icon := "🎨",
       text := .adImageReady, link := none }]
  else if msg.type = "auction_ended" then
    let won := jsEq msg.winner msg.agentId
    [{ timestamp := msg.timestamp,
       ltype := if won then .success else .info,
       icon := if won then "🏆" else "🏁",
       text := .auctionEndNote won msg.endReason msg.finalBid,
       link := none }]
  else []

/-- getBrandName: maps raw agent ids to the two brand names. -/
def getBrandName (agentId : String) : String :=
  if agentId = "IceCo" ∨ agentId = "AgentA" then "IceCo"
  else if agentId = "FizzUp" ∨ agentId = "AgentB" then "FizzUp"
  else agentId

/-- Condition under which a message lands in the IceCo terminal. -/
def inIceCoView (msg : StreamingMessage) : Bool :=
  getBrandName (msg.agentId.getD "") == "IceCo" || msg.type == "auction_ended"

/-- Condition under which a message lands in the FizzUp terminal. -/
def inFizzUpView (msg : StreamingMessage) : Bool :=
  getBrandName (msg.agentId.getD "") == "FizzUp" || msg.type == "auction_ended"

/-- The useMemo body deriving the per-party log lists. -/
def splitLogs (messages : List StreamingMessage) :
    List TerminalLog × List TerminalLog :=
  messages.foldl
    (fun acc msg =>
      let ice := if inIceCoView msg then acc.1 ++ messageToTerminalLog msg
                 else acc.1
      let fizz := if inFizzUpView msg then acc.2 ++ messageToTerminalLog msg
                  else acc.2
      (ice, fizz))
    ([], [])

/-! ## Helper lemmas shared across the claim theorems -/

lemma stopRefundMonitoring_eq (s : AgentSt) :
    stopRefundMonitoring s = { s with refundMon := 0 } := by
  unfold stopRefundMonitoring
  split
  · rfl
  · rename_i h
    cases s
    simp_all

lemma stopAuctionEndMonitoring_eq (s : AgentSt) :
    stopAuctionEndMonitoring s = { s with endMon := 0 } := by
  unfold stopAuctionEndMonitoring
  split
  · rfl
  · rename_i h
    cases s
    simp_all

lemma auctionEndTick_trigger_endMon (self : String) (obs : LedgerObs)
    (s : AgentSt) (h : (auctionEndTick self obs s).2 = true) :
    (auctionEndTick self obs s).1.endMon = 0 := by
  unfold auctionEndTick at h ⊢
  by_cases h0 : s.endMon = 0
  · rw [if_pos h0] at h
    simp at h
  · rw [if_neg h0] at h ⊢
    by_cases hc : obs.auctionEnded = true ∧ obs.currentWinner = some self ∧
        obs.winnerAdImageUrl = none
    · rw [if_pos hc]
      simp [stopRefundMonitoring_eq, stopAuctionEndMonitoring_eq]
    · rw [if_neg hc] at h
      simp at h

lemma runEndTicks_endMon_zero (self : String) :
    ∀ (l : List LedgerObs) (s : AgentSt), s.endMon = 0 →
      (runEndTicks self s l).2 = 0 := by
  intro l
  induction l with
  | nil => intro s _; rfl
  | cons obs rest ih =>
      intro s hs
      have htick : auctionEndTick self obs s = (s, false) := by
        unfold auctionEndTick
        rw [if_pos hs]
      simp [runEndTicks, htick, ih s hs]

lemma applyEvent_seenEventIds (now : ℤ) (e : PageEvent) (s : ConsumerState) :
    (applyEvent now e s).seenEventIds = s.seenEventIds := by
  unfold applyEvent
  repeat' split
  all_goals rfl

lemma countP_erase_of_neg (p : Task → Bool) (l : List Task) (a : Task)
    (h : p a = false) : (l.erase a).countP p = l.countP p := by
  by_cases hm : a ∈ l
  · have hperm := (List.perm_cons_erase hm).countP_eq p
    rw [hperm, List.countP_cons, h]
    simp
  · rw [List.erase_of_not_mem hm]

lemma countP_erase_of_pos (p : Task → Bool) (l : List Task) (a : Task)
    (hm : a ∈ l) (h : p a = true) :
    (l.erase a).countP p + 1 = l.countP p := by
  have hperm := (List.perm_cons_erase hm).countP_eq p
  rw [hperm, List.countP_cons, h]
  simp

lemma countP_erase_le (p : Task → Bool) (l : List Task) (a : Task) :
    (l.erase a).countP p ≤ l.countP p := by
  by_cases hm : a ∈ l
  · by_cases hp : p a = true
    · have := countP_erase_of_pos p l a hm hp
      omega
    · rw [countP_erase_of_neg p l a (by simpa using hp)]
  · rw [List.erase_of_not_mem hm]

@[simp] lemma clearRefundField_active (s : FineSt) :
    (clearRefundField s).active = s.active := by
  unfold clearRefundField; split <;> rfl

@[simp] lemma clearRefundField_reasoning (s : FineSt) :
    (clearRefundField s).reasoning = s.reasoning := by
  unfold clearRefundField; split <;> rfl

@[simp] lemma clearRefundField_pending (s : FineSt) :
    (clearRefundField s).pending = s.pending := by
  unfold clearRefundField; split <;> rfl

@[simp] lemma clearRefundField_tasks (s : FineSt) :
    (clearRefundField s).tasks = s.tasks := by
  unfold clearRefundField; split <;> rfl

@[simp] lemma clearRefundField_monitoringField (s : FineSt) :
    (clearRefundField s).monitoringField = none := by
  unfold clearRefundField
  split
  · rfl
  · rename_i h
    exact h

@[simp] lemma clearRefundField_endField (s : FineSt) :
    (clearRefundField s).endField = s.endField := by
  unfold clearRefundField; split <;> rfl

@[simp] lemma clearRefundField_endLive (s : FineSt) :
    (clearRefundField s).endLive = s.endLive := by
  unfold clearRefundField; split <;> rfl

@[simp] lemma clearRefundField_genStarts (s : FineSt) :
    (clearRefundField s).genStarts = s.genStarts := by
  unfold clearRefundField; split <;> rfl

@[simp] lemma clearEndField_active (s : FineSt) :
    (clearEndField s).active = s.active := by
  unfold clearEndField; split <;> rfl

@[simp] lemma clearEndField_reasoning (s : FineSt) :
    (clearEndField s).reasoning = s.reasoning := by
  unfold clearEndField; split <;> rfl

@[simp] lemma clearEndField_pending (s : FineSt) :
    (clearEndField s).pending = s.pending := by
  unfold clearEndField; split <;> rfl

@[simp] lemma clearEndField_tasks (s : FineSt) :
    (clearEndField s).tasks = s.tasks := by
  unfold clearEndField; split <;> rfl

@[simp] lemma clearEndField_monitoringField (s : FineSt) :
    (clearEndField s).monitoringField = s.monitoringField := by
  unfold clearEndField; split <;> rfl

@[simp] lemma clearEndField_endField (s : FineSt) :
    (clearEndField s).endField = none := by
  unfold clearEndField
  split
  · rfl
  · rename_i h
    exact h

@[simp] lemma clearEndField_refundLive (s : FineSt) :
    (clearEndField s).refundLive = s.refundLive := by
  unfold clearEndField; split <;> rfl

@[simp] lemma clearEndField_genStarts (s : FineSt) :
    (clearEndField s).genStarts = s.genStarts := by
  unfold clearEndField; split <;> rfl

lemma clearRefundField_field_none (s : FineSt) (j : Nat)
    (h : s.monitoringField = some j) :
    (clearRefundField s).monitoringField = none ∧
      (clearRefundField s).refundLive = s.refundLive.erase j := by
  unfold clearRefundField
  rw [h]
  exact ⟨rfl, rfl⟩

lemma clearEndField_field_none (s : FineSt) (j : Nat)
    (h : s.endField = some j) :
    (clearEndField s).endField = none ∧
      (clearEndField s).endLive = s.endLive.erase j := by
  unfold clearEndField
  rw [h]
  exact ⟨rfl, rfl⟩

/-! ## Claim theorems -/

/-- Counterexample for C1 as stated: setInterval does not wait for its
async callback, so two executions of the refund interval can be in
flight at once.  In the schedule overlappingPollActs both executions
read the same stale closure previousBalance across their balance
awaits, both classify the increase as an outbid, each queues a
decision cycle, and both queued cycles pass the isActive check and
enter decideBidStrategy: the reached state has two decision runs in
flight, refuting at most one active decision task at all times. -/
theorem c1_counterexample :
    runningDecisions (runFine fineStart overlappingPollActs) = 2 ∧
    (runFine fineStart overlappingPollActs).active = true := by
  constructor <;> decide

/-- Claim C1, amended: at await granularity, an outbid status
resolution while isInAIReasoning is true only sets refundPending - it
neither starts nor queues any decision cycle; the finally block of a
decision completing with refundPending set and the coordinator still
active queues exactly one immediate re-evaluation and clears the
flag; and, under the scheduling proviso that callback executions do
not overlap (each refund poll finishes before the next timer event -
the serialized model), every reachable coordinator state holds at
most one decision task, running or queued.  The counterexample shows
the proviso is necessary. -/
theorem c1_outbid_race_contract :
    (∀ (s : FineSt) (i : Nat) (bal : ℚ),
      s.reasoning = true → Task.refundAwaitStatus i bal ∈ s.tasks →
        (fineStep s (.refundStatusResolved i bal false)).pending = true ∧
        runningDecisions (fineStep s (.refundStatusResolved i bal false)) =
          runningDecisions s ∧
        queuedDecisions (fineStep s (.refundStatusResolved i bal false)) =
          queuedDecisions s) ∧
    (∀ s : FineSt, Task.decisionBody ∈ s.tasks → s.pending = true →
      s.active = true →
        queuedDecisions (fineStep s .decisionCompletes) =
          queuedDecisions s + 1 ∧
        (fineStep s .decisionCompletes).pending = false ∧
        runningDecisions (fineStep s .decisionCompletes) + 1 =
          runningDecisions s) ∧
    (∀ (self : String) (s : AgentSt), Reachable self s →
      s.running + s.scheduled ≤ 1) := by
  refine ⟨?_, ?_, ?_⟩
  · intro s i bal hreas htask
    refine ⟨?_, ?_, ?_⟩
    · simp [fineStep, htask, hreas]
    · simp only [fineStep, runningDecisions, if_pos htask]
      simp [hreas, countP_erase_of_neg isDecisionStage s.tasks
        (.refundAwaitStatus i bal) rfl]
    · simp only [fineStep, queuedDecisions, if_pos htask]
      simp [hreas, countP_erase_of_neg (fun t => t == Task.scheduledDecision)
        s.tasks (.refundAwaitStatus i bal) rfl]
  · intro s hbody hpend hact
    refine ⟨?_, ?_, ?_⟩
    · simp only [fineStep, queuedDecisions, if_pos hbody]
      split
      · simp [List.countP_cons,
          countP_erase_of_neg (fun t => t == Task.scheduledDecision) s.tasks
            .decisionBody rfl]
      · rename_i hc
        exact absurd ⟨hpend, hact⟩ hc
    · simp [fineStep, hbody, hpend, hact]
    · simp only [fineStep, runningDecisions, if_pos hbody]
      split
      · simp [List.countP_cons]
        exact countP_erase_of_pos isDecisionStage s.tasks .decisionBody hbody
          rfl
      · rename_i hc
        exact absurd ⟨hpend, hact⟩ hc
  · intro self s h
    exact (agentInv_of_reachable h).1

/-- Witness for C1 at concrete states: an outbid status resolution
during a running decision, a completion with a pending refund, and the
initial serialized state for the invariant. -/
theorem c1_witness :
    (outbidMidDecisionSt.reasoning = true ∧
     Task.refundAwaitStatus 1 6 ∈ outbidMidDecisionSt.tasks ∧
     ((fineStep outbidMidDecisionSt
         (.refundStatusResolved 1 6 false)).pending = true ∧
      runningDecisions (fineStep outbidMidDecisionSt
        (.refundStatusResolved 1 6 false)) =
        runningDecisions outbidMidDecisionSt ∧
      queuedDecisions (fineStep outbidMidDecisionSt
        (.refundStatusResolved 1 6 false)) =
        queuedDecisions outbidMidDecisionSt)) ∧
    (queuedDecisions (fineStep pendingCompletionSt .decisionCompletes) =
       queuedDecisions pendingCompletionSt + 1 ∧
     (fineStep pendingCompletionSt .decisionCompletes).pending = false ∧
     runningDecisions (fineStep pendingCompletionSt .decisionCompletes) + 1 =
       runningDecisions pendingCompletionSt) ∧
    initialAgentState.running + initialAgentState.scheduled ≤ 1 :=
  ⟨⟨rfl, by decide,
    c1_outbid_race_contract.1 outbidMidDecisionSt 1 6 rfl (by decide)⟩,
   c1_outbid_race_contract.2.1 pendingCompletionSt (by decide) rfl rfl,
   c1_outbid_race_contract.2.2 "AgentA" initialAgentState Reachable.init⟩

/-- Claim C2: any proposed amount strictly above maxBid - 0.08 makes
place_bid return the OverBudget outcome carrying maxAllowedBid =
maxBid - 0.08 and totalBudget = maxBid, with no bid request submitted
and never the TooLow classification, whatever the server (and hence
the current bid) would have answered; in particular maxBid = 5 and a
$6.00 bid yield maxAllowedBid = 4.92. -/
theorem c2_overbudget_precedence :
    (∀ (maxBid proposedAmount : ℚ) (server : ServerBidResponse),
      proposedAmount > maxBid - 0.08 →
        placeBidTool maxBid proposedAmount server =
          { outcome := .overBudget proposedAmount (maxBid - 0.08) maxBid,
            requestSent := false } ∧
        isTooLowOutcome (placeBidTool maxBid proposedAmount server).outcome =
          false) ∧
    (∀ server : ServerBidResponse,
      placeBidTool 5 6 server =
        { outcome := .overBudget 6 4.92 5, requestSent := false }) := by
  constructor
  · intro maxBid proposedAmount server h
    constructor
    · simp [placeBidTool, h]
    · simp [placeBidTool, h, isTooLowOutcome]
  · intro server
    have h : (6 : ℚ) > 5 - 0.08 := by norm_num
    have h492 : (5 : ℚ) - 0.08 = 4.92 := by norm_num
    simp only [placeBidTool, h492]
    rw [if_pos (by norm_num : (6 : ℚ) > 4.92)]

/-- Witness for C2: the scenario with maxBid 5 and a $6.00 proposal. -/
theorem c2_witness :
    (6 : ℚ) > 5 - 0.08 ∧
    (placeBidTool 5 6 .otherFailure =
       { outcome := .overBudget 6 (5 - 0.08) 5, requestSent := false } ∧
     isTooLowOutcome (placeBidTool 5 6 .otherFailure).outcome = false) :=
  ⟨by norm_num, c2_overbudget_precedence.1 5 6 .otherFailure (by norm_num)⟩

/-- Counterexample for C3 as stated (stops both monitors and
transitions to creative generation EXACTLY once): the 5s auction-end
interval fires again while the first status fetch is still in flight;
the first resolution triggers and clears both monitors, but the second
fetch, already sent, still observes the ad image absent (the creative
run has not finished) and triggers a second creative generation.  The
schedule doubleTriggerActs reaches genStarts = 2.  The reached state
also still has isActive true: the source clears it only when the
creative run completes. -/
theorem c3_counterexample :
    (runFine fineStart doubleTriggerActs).genStarts = 2 ∧
    (runFine fineStart doubleTriggerActs).active = true := by
  constructor <;> decide

/-- Claim C3, amended: a status resolution observing ended, winner =
self and no ad image clears both monitor interval fields and starts
creative generation (isActive clears only later, when that run
completes); a resolution observing the auction open, another winner,
or an existing image triggers nothing and leaves the monitors, the
flags and the trigger count unchanged; and creative generation
triggers at most once under the proviso that the status fetch of each tick
resolves before the next tick fires (the serialized tick model) - the
counterexample shows overlapping in-flight fetches can trigger
twice. -/
theorem c3_auction_end_monitor (self : String) :
    (∀ (s : FineSt) (i : Nat), Task.endAwaitStatus i ∈ s.tasks →
        (fineStep s (.endStatusResolved i true true false)).monitoringField =
          none ∧
        (fineStep s (.endStatusResolved i true true false)).endField = none ∧
        (fineStep s (.endStatusResolved i true true false)).genStarts =
          s.genStarts + 1 ∧
        Task.creativeRun ∈
          (fineStep s (.endStatusResolved i true true false)).tasks ∧
        (fineStep s (.endStatusResolved i true true false)).active =
          s.active) ∧
    (∀ (s : FineSt) (i : Nat) (ended winnerSelf hasImage : Bool),
      ended = false ∨ winnerSelf = false ∨ hasImage = true →
        (fineStep s (.endStatusResolved i ended winnerSelf hasImage)).genStarts =
          s.genStarts ∧
        (fineStep s (.endStatusResolved i ended winnerSelf hasImage)).monitoringField =
          s.monitoringField ∧
        (fineStep s (.endStatusResolved i ended winnerSelf hasImage)).endField =
          s.endField ∧
        (fineStep s (.endStatusResolved i ended winnerSelf hasImage)).refundLive =
          s.refundLive ∧
        (fineStep s (.endStatusResolved i ended winnerSelf hasImage)).endLive =
          s.endLive) ∧
    (∀ (s : AgentSt) (obss : List LedgerObs),
      (runEndTicks self s obss).2 ≤ 1) := by
  refine ⟨?_, ?_, ?_⟩
  · intro s i htask
    simp [fineStep, htask]
  · intro s i ended winnerSelf hasImage h
    by_cases hmem : Task.endAwaitStatus i ∈ s.tasks
    · rcases h with h | h | h <;> subst h <;> simp [fineStep, hmem]
    · simp [fineStep, hmem]
  · intro s obss
    induction obss generalizing s with
    | nil => simp [runEndTicks]
    | cons obs rest ih =>
        simp only [runEndTicks]
        rcases hb : (auctionEndTick self obs s).2 with _ | _
        · simpa using ih (auctionEndTick self obs s).1
        · have hzero : (auctionEndTick self obs s).1.endMon = 0 :=
            auctionEndTick_trigger_endMon self obs s hb
          simp [runEndTicks_endMon_zero self rest _ hzero]

/-- Witness for C3: a winning status resolution at a concrete state
with both monitors installed, and a non-winning one (auction still
open). -/
theorem c3_witness :
    (Task.endAwaitStatus 0 ∈ endFetchPendingSt.tasks ∧
     ((fineStep endFetchPendingSt
         (.endStatusResolved 0 true true false)).monitoringField = none ∧
      (fineStep endFetchPendingSt
        (.endStatusResolved 0 true true false)).endField = none ∧
      (fineStep endFetchPendingSt
        (.endStatusResolved 0 true true false)).genStarts =
        endFetchPendingSt.genStarts + 1 ∧
      Task.creativeRun ∈
        (fineStep endFetchPendingSt (.endStatusResolved 0 true true false)).tasks ∧
      (fineStep endFetchPendingSt
        (.endStatusResolved 0 true true false)).active =
        endFetchPendingSt.active)) ∧
    (fineStep endFetchPendingSt
        (.endStatusResolved 0 false true false)).genStarts =
      endFetchPendingSt.genStarts :=
  ⟨⟨by decide,
    (c3_auction_end_monitor "AgentA").1 endFetchPendingSt 0 (by decide)⟩,
   ((c3_auction_end_monitor "AgentA").2.1 endFetchPendingSt 0 false true false
     (Or.inl rfl)).1⟩

/-- Counterexample for C5 as stated (after stop() no new decision
cycle or monitor rescheduling is started): a decision in flight across
its balance await when stop() lands resumes, passes the
startRefundMonitoring null guard - which has no isActive re-check -
and installs the refund interval in the stopped state.  The schedule
stopThenResumeActs reaches a stopped state with one live refund
interval. -/
theorem c5_counterexample :
    (runFine fineStart stopThenResumeActs).active = false ∧
    (runFine fineStart stopThenResumeActs).refundLive.length = 1 ∧
    (runFine fineStart stopThenResumeActs).monitoringField = some 1 := by
  refine ⟨?_, ?_, ?_⟩ <;> decide

/-- Claim C5, amended: all three stop operations are idempotent, and
after stop() no new decision cycle starts - every occurrence from a
stopped fine state leaves the number of running decideBidStrategy runs
non-increasing, because each queued callback re-checks isActive
synchronously before entering decideBidStrategy.  The monitor clause
of the original claim is weakened to what the code guarantees: a
decision already in flight can reinstall the refund monitor after
stop() (the counterexample), but the reinstalled interval clears
itself on its first tick in the stopped state. -/
theorem c5_stops_idempotent :
    (∀ s : AgentSt,
      stopRefundMonitoring (stopRefundMonitoring s) = stopRefundMonitoring s) ∧
    (∀ s : AgentSt,
      stopAuctionEndMonitoring (stopAuctionEndMonitoring s) =
        stopAuctionEndMonitoring s) ∧
    (∀ s : AgentSt, stopAgent (stopAgent s) = stopAgent s) ∧
    (∀ (s : FineSt) (act : Act), s.active = false →
      runningDecisions (fineStep s act) ≤ runningDecisions s) ∧
    (∀ (s : FineSt) (i : Nat), s.active = false →
      s.monitoringField = some i → i ∈ s.refundLive →
        (fineStep s (.refundTick i)).monitoringField = none ∧
        (fineStep s (.refundTick i)).refundLive = s.refundLive.erase i) := by
  refine ⟨?_, ?_, ?_, ?_, ?_⟩
  · intro s
    simp [stopRefundMonitoring_eq]
  · intro s
    simp [stopAuctionEndMonitoring_eq]
  · intro s
    simp [stopAgent, stopRefundMonitoring_eq, stopAuctionEndMonitoring_eq]
  · intro s act hact
    cases act with
    | refundTick i =>
        simp only [fineStep]
        split
        · rw [if_neg (by simp [hact])]
          simp [runningDecisions]
        · exact Nat.le_refl _
    | refundBalanceResolved i bal =>
        simp only [fineStep, runningDecisions]
        split
        · split <;>
            simp [List.countP_cons, isDecisionStage,
              countP_erase_of_neg isDecisionStage s.tasks
                (.refundAwaitBalance i) rfl]
        · exact Nat.le_refl _
    | refundStatusResolved i bal winnerSelf =>
        simp only [fineStep, runningDecisions]
        split
        · split
          · simp [countP_erase_of_neg isDecisionStage s.tasks
              (.refundAwaitStatus i bal) rfl]
          · split <;>
              simp [List.countP_cons, isDecisionStage,
                countP_erase_of_neg isDecisionStage s.tasks
                  (.refundAwaitStatus i bal) rfl]
        · exact Nat.le_refl _
    | scheduledFire =>
        simp only [fineStep, runningDecisions]
        split
        · rw [if_neg (by simp [hact])]
          simp [countP_erase_of_neg isDecisionStage s.tasks
            .scheduledDecision rfl]
        · exact Nat.le_refl _
    | decisionBalanceResolved =>
        simp only [fineStep, runningDecisions]
        split
        · rename_i hmem
          have hpos := countP_erase_of_pos isDecisionStage s.tasks
            .decisionAwaitBalance hmem rfl
          split <;> simp [List.countP_cons, isDecisionStage] <;> omega
        · exact Nat.le_refl _
    | baselineResolved bal =>
        simp only [fineStep, runningDecisions]
        split
        · rename_i hmem
          have hpos := countP_erase_of_pos isDecisionStage s.tasks
            .baselineAwait hmem rfl
          simp [List.countP_cons, isDecisionStage]
          omega
        · exact Nat.le_refl _
    | decisionCompletes =>
        simp only [fineStep, runningDecisions]
        split
        · rename_i hmem
          have hpos := countP_erase_of_pos isDecisionStage s.tasks
            .decisionBody hmem rfl
          split <;> simp [List.countP_cons, isDecisionStage] <;> omega
        · exact Nat.le_refl _
    | endTick i =>
        simp only [fineStep, runningDecisions]
        split <;> simp [List.countP_cons, isDecisionStage]
    | endStatusResolved i ended winnerSelf hasImage =>
        simp only [fineStep, runningDecisions]
        split
        · split <;>
            simp [List.countP_cons, isDecisionStage,
              countP_erase_of_neg isDecisionStage s.tasks
                (.endAwaitStatus i) rfl]
        · exact Nat.le_refl _
    | creativeCompletes =>
        simp only [fineStep, runningDecisions]
        split
        · exact countP_erase_le isDecisionStage s.tasks .creativeRun
        · exact Nat.le_refl _
    | creativeFails =>
        simp only [fineStep, runningDecisions]
        split
        · exact countP_erase_le isDecisionStage s.tasks .creativeRun
        · exact Nat.le_refl _
    | deactivateInDecision =>
        simp only [fineStep, runningDecisions]
        split
        · simp
        · exact Nat.le_refl _
    | stopCall =>
        simp only [fineStep, runningDecisions]
        simp
  · intro s i hact hfield hlive
    simp only [fineStep]
    rw [if_pos hlive, if_neg (by simp [hact])]
    exact clearRefundField_field_none s i hfield

/-- Witness for C5: a queued decision callback firing in a stopped
state starts nothing, and a reinstalled refund interval in a stopped
state clears itself on its first tick. -/
theorem c5_witness :
    (stoppedQueuedSt.active = false ∧
     runningDecisions (fineStep stoppedQueuedSt .scheduledFire) ≤
       runningDecisions stoppedQueuedSt) ∧
    (stoppedReinstalledSt.active = false ∧
     stoppedReinstalledSt.monitoringField = some 1 ∧
     1 ∈ stoppedReinstalledSt.refundLive ∧
     ((fineStep stoppedReinstalledSt (.refundTick 1)).monitoringField = none ∧
      (fineStep stoppedReinstalledSt (.refundTick 1)).refundLive =
        stoppedReinstalledSt.refundLive.erase 1)) :=
  ⟨⟨rfl, c5_stops_idempotent.2.2.2.1 stoppedQueuedSt .scheduledFire rfl⟩,
   ⟨rfl, rfl, by decide,
    c5_stops_idempotent.2.2.2.2 stoppedReinstalledSt 1 rfl rfl (by decide)⟩⟩

/-- Claim C8: processEventPayment refuses (success false, nothing
executed, balance untouched) whenever the event amount exceeds the
agent max bid, the 10.0 safety threshold, or the wallet balance, and
only executes a payment when all three checks pass. -/
theorem c8_payment_safety :
    ∀ (maxBid balance : ℚ) (event : AdEvent),
      ((event.bidAmount > maxBid ∨ event.bidAmount > SAFETY_THRESHOLD ∨
          event.bidAmount > balance) →
        (processEventPayment maxBid balance event).success = false ∧
        (processEventPayment maxBid balance event).executed = false ∧
        (processEventPayment maxBid balance event).newBalance = balance) ∧
      (event.bidAmount ≤ maxBid → event.bidAmount ≤ SAFETY_THRESHOLD →
        event.bidAmount ≤ balance →
        (processEventPayment maxBid balance event).executed = true) := by
  intro maxBid balance event
  constructor
  · intro h
    simp only [processEventPayment]
    split_ifs with h1 h2 h3
    · exact ⟨rfl, rfl, rfl⟩
    · exact ⟨rfl, rfl, rfl⟩
    · exact ⟨rfl, rfl, rfl⟩
    · exfalso
      rcases h with h | h | h <;> [exact h1 h; exact h2 h; linarith]
  · intro ha hb hc
    simp only [processEventPayment]
    split_ifs with h1 h2 h3
    · exfalso; linarith
    · exfalso; linarith
    · exfalso; linarith
    · rfl

/-- Witness for C8: the payment-safety test scenarios (maxBid 5,
balance 100): a $15 event is blocked, a $2.50 event is executed. -/
theorem c8_witness :
    ((15 : ℚ) > 5 ∨ (15 : ℚ) > SAFETY_THRESHOLD ∨ (15 : ℚ) > 100) ∧
    ((processEventPayment 5 100
        { eventId := "evt_2", type := "click", campaignId := "camp_1",
          creativeId := "cr_1", timestamp := "t", bidAmount := 15 }).success =
        false ∧
     (processEventPayment 5 100
        { eventId := "evt_2", type := "click", campaignId := "camp_1",
          creativeId := "cr_1", timestamp := "t", bidAmount := 15 }).executed =
        false ∧
     (processEventPayment 5 100
        { eventId := "evt_2", type := "click", campaignId := "camp_1",
          creativeId := "cr_1", timestamp := "t", bidAmount := 15 }).newBalance =
        100) ∧
    (processEventPayment 5 100
        { eventId := "evt_1", type := "impression", campaignId := "camp_1",
          creativeId := "cr_1", timestamp := "t", bidAmount := 2.5 }).executed =
      true :=
  ⟨Or.inl (by norm_num),
   (c8_payment_safety 5 100
      { eventId := "evt_2", type := "click", campaignId := "camp_1",
        creativeId := "cr_1", timestamp := "t", bidAmount := 15 }).1
     (Or.inl (by norm_num)),
   (c8_payment_safety 5 100
      { eventId := "evt_1", type := "impression", campaignId := "camp_1",
        creativeId := "cr_1", timestamp := "t", bidAmount := 2.5 }).2
     (by norm_num) (by norm_num [SAFETY_THRESHOLD]) (by norm_num)⟩

/-- Counterexample for C9 as stated (at most one refund-monitor
interval exists at any time): the null guard of startRefundMonitoring
and its setInterval assignment are separated by the baseline-balance
await with no re-check, so two calls in flight at once - here issued
by the two overlapping decision runs of the C1 race - both pass the
guard and both install.  The schedule overlappingInstallActs reaches
two live refund intervals, the field holding only the second (the
first is leaked and unclearable). -/
theorem c9_counterexample :
    (runFine fineStart overlappingInstallActs).refundLive.length = 2 ∧
    (runFine fineStart overlappingInstallActs).monitoringField = some 3 := by
  constructor <;> decide

/-- Claim C9, amended: a startRefundMonitoring call that finds the
monitoringInterval field non-null returns without installing anything
(no interval created, no fresh handle, the call chain just proceeds);
monitorAuctionEnd, whose guard and install are synchronous, is a no-op
while its interval exists; and at most one interval per monitor holds
under the proviso that installer calls do not overlap across the
baseline await (the serialized model) - the counterexample shows
overlapping calls install two. -/
theorem c9_monitor_singleton (self : String) :
    (∀ (s : FineSt) (j : Nat), s.monitoringField = some j →
      Task.decisionAwaitBalance ∈ s.tasks →
        (fineStep s .decisionBalanceResolved).refundLive = s.refundLive ∧
        (fineStep s .decisionBalanceResolved).monitoringField =
          s.monitoringField ∧
        (fineStep s .decisionBalanceResolved).nextId = s.nextId ∧
        (fineStep s .decisionBalanceResolved).tasks =
          Task.decisionBody :: s.tasks.erase .decisionAwaitBalance) ∧
    (∀ s : AgentSt, s.endMon ≠ 0 → monitorAuctionEnd s = s) ∧
    (∀ s : AgentSt, Reachable self s → s.refundMon ≤ 1 ∧ s.endMon ≤ 1) := by
  refine ⟨?_, ?_, ?_⟩
  · intro s j hfield htask
    simp [fineStep, htask, hfield]
  · intro s h
    simp [monitorAuctionEnd, h]
  · intro s h
    have hinv := agentInv_of_reachable h
    exact ⟨hinv.2.2.1, hinv.2.2.2.1⟩

/-- Witness for C9: a guarded install at a state whose refund interval
is already installed, the synchronous end-monitor guard at the initial
serialized state, and the serialized interval bounds. -/
theorem c9_witness :
    (guardedInstallSt.monitoringField = some 1 ∧
     Task.decisionAwaitBalance ∈ guardedInstallSt.tasks ∧
     ((fineStep guardedInstallSt .decisionBalanceResolved).refundLive =
        guardedInstallSt.refundLive ∧
      (fineStep guardedInstallSt .decisionBalanceResolved).monitoringField =
        guardedInstallSt.monitoringField ∧
      (fineStep guardedInstallSt .decisionBalanceResolved).nextId =
        guardedInstallSt.nextId ∧
      (fineStep guardedInstallSt .decisionBalanceResolved).tasks =
        Task.decisionBody :: guardedInstallSt.tasks.erase
          .decisionAwaitBalance)) ∧
    monitorAuctionEnd initialAgentState = initialAgentState ∧
    (initialAgentState.refundMon ≤ 1 ∧ initialAgentState.endMon ≤ 1) :=
  ⟨⟨rfl, by decide,
    (c9_monitor_singleton "AgentA").1 guardedInstallSt 1 rfl (by decide)⟩,
   (c9_monitor_singleton "AgentA").2.1 initialAgentState (by decide),
   (c9_monitor_singleton "AgentA").2.2 initialAgentState Reachable.init⟩

/-- Counterexample for C4 as stated: getDemoEvents re-samples the
server clock per request and restamps all 22 demo events relative to
it (startTime = now - 60000), so the fetch is not a function of the
watermark alone.  At clock 100000 the full history ends with the
ad_image_ready event at timestamp 92000 - the max-timestamp watermark
after that poll.  Re-polling the unchanged watermark 50000 two seconds
later (clock 102000) returns a different, shifted set, and polling
with watermark 92000 at clock 102000 re-delivers an ad_image_ready
event (now restamped to 94000): the re-polling and
no-duplicate-delivery clauses fail on the demo path. -/
theorem c4_counterexample :
    getDemoEvents 102000 (some 50000) ≠ getDemoEvents 100000 (some 50000) ∧
    ({ type := "ad_image_ready", agentId := none, timestamp := 92000 } :
        DemoEvent) ∈ getDemoEvents 100000 none ∧
    ((getDemoEvents 100000 none).all (fun e => e.timestamp ≤ 92000)) = true ∧
    ({ type := "ad_image_ready", agentId := none, timestamp := 94000 } :
        DemoEvent) ∈ getDemoEvents 102000 (some 92000) := by
  refine ⟨?_, ?_, ?_, ?_⟩ <;> decide

/-- Claim C4, amended: within one polling request - one sampling of
the server clock `now` - the demo fetch returns exactly the events of
the history of that request that are strictly newer than the watermark; a
poll with no watermark returns the full history; a returned event is
never at or below the watermark; and over one fixed clock two
successive watermarks w₁ ≤ w₂ partition the stream with nothing
skipped or delivered twice.  Across requests the clock moves and the
demo generator restamps every event, so the cross-request re-polling
clause of the original claim fails (see the counterexample); the
stored-event path of the route delegates to the database layer, which
is outside the sources under verification. -/
theorem c4_polling_contract (now : ℤ) :
    (∀ (s : ℤ) (e : DemoEvent),
      e ∈ getDemoEvents now (some s) ↔
        e ∈ getDemoEvents now none ∧ s < e.timestamp) ∧
    (getDemoEvents now none = allDemoEvents now) ∧
    (∀ (w : ℤ) (e : DemoEvent),
      e ∈ getDemoEvents now (some w) → w < e.timestamp) ∧
    (∀ (w₁ w₂ : ℤ) (e : DemoEvent), w₁ ≤ w₂ →
      (e ∈ getDemoEvents now (some w₁) ↔
        (e ∈ getDemoEvents now (some w₂) ∨
         (e ∈ getDemoEvents now none ∧ w₁ < e.timestamp ∧
          e.timestamp ≤ w₂)))) := by
  have hmem : ∀ (since : Option ℤ) (e : DemoEvent),
      e ∈ getDemoEvents now since ↔
        e ∈ allDemoEvents now ∧
          (∀ s, since = some s → s < e.timestamp) ∧ e.timestamp ≤ now := by
    intro since e
    cases since with
    | none =>
        simp [getDemoEvents, List.mem_filter]
    | some s =>
        simp only [getDemoEvents, List.mem_filter, Bool.and_eq_true,
          decide_eq_true_eq]
        constructor
        · rintro ⟨he, hs, hn⟩
          exact ⟨he, fun s' hs' => by cases hs'; exact hs, hn⟩
        · rintro ⟨he, hs, hn⟩
          exact ⟨he, hs s rfl, hn⟩
  have hfull : getDemoEvents now none = allDemoEvents now := by
    apply List.filter_eq_self.mpr
    intro e he
    simp only [Bool.and_eq_true, decide_eq_true_eq]
    refine ⟨trivial, ?_⟩
    simp only [allDemoEvents, List.mem_map] at he
    obtain ⟨sp, hsp, rfl⟩ := he
    have hb : ∀ x ∈ demoEventSpecs, x.2.2 ≤ 60000 := by decide
    have := hb sp hsp
    simp only []
    omega
  refine ⟨?_, hfull, ?_, ?_⟩
  · intro s e
    rw [hmem (some s) e, hmem none e]
    constructor
    · rintro ⟨he, hs, hn⟩
      exact ⟨⟨he, by simp, hn⟩, hs s rfl⟩
    · rintro ⟨⟨he, _, hn⟩, hs⟩
      exact ⟨he, fun s' hs' => by cases hs'; exact hs, hn⟩
  · intro w e he
    exact ((hmem (some w) e).mp he).2.1 w rfl
  · intro w₁ w₂ e hw
    rw [hmem (some w₁) e, hmem (some w₂) e, hmem none e]
    constructor
    · rintro ⟨he, hs, hn⟩
      have h₁ := hs w₁ rfl
      by_cases hc : e.timestamp ≤ w₂
      · exact Or.inr ⟨⟨he, by simp, hn⟩, h₁, hc⟩
      · exact Or.inl ⟨he, fun s' hs' => by cases hs'; omega, hn⟩
    · rintro (⟨he, hs, hn⟩ | ⟨⟨he, _, hn⟩, h₁, h₂⟩)
      · have := hs w₂ rfl
        exact ⟨he, fun s' hs' => by cases hs'; omega, hn⟩
      · exact ⟨he, fun s' hs' => by cases hs'; exact h₁, hn⟩

/-- Witness for C4: at now = 100000, the IceCo bid event at timestamp
62000 is returned for watermark 50000 and is strictly newer than it. -/
theorem c4_witness :
    ({ type := "bid_placed", agentId := some "IceCo", timestamp := 62000 } :
        DemoEvent) ∈ getDemoEvents 100000 (some 50000) ∧
    (50000 : ℤ) <
      ({ type := "bid_placed", agentId := some "IceCo", timestamp := 62000 } :
        DemoEvent).timestamp :=
  ⟨by decide,
   (c4_polling_contract 100000).2.2.1 50000
     { type := "bid_placed", agentId := some "IceCo", timestamp := 62000 }
     (by decide)⟩

/-- Counterexample for C6 as stated: a thinking event (it carries no
transaction hash) processed twice at different wall-clock instants is
appended twice, because Date.now() enters its deduplication key.  The
second processing does not leave the message list unchanged. -/
theorem c6_counterexample :
    (processEvent 1
        { type := "thinking", agentId := some "IceCo", timestamp := "ts1",
          thinking := some "analysis" }
        emptyConsumerState).messages.length = 1 ∧
    (processEvent 2
        { type := "thinking", agentId := some "IceCo", timestamp := "ts1",
          thinking := some "analysis" }
        (processEvent 1
          { type := "thinking", agentId := some "IceCo", timestamp := "ts1",
            thinking := some "analysis" }
          emptyConsumerState)).messages.length = 2 := by
  constructor <;> rfl

/-- Claim C6 amended: for every event that carries a (non-empty)
transaction hash, processing it a second time is the identity on the
whole consumer state, whatever the two wall-clock instants are: the
key type-agentId-timestamp-transactionHash is already in the seen
set. -/
theorem c6_dedup_with_txhash :
    ∀ (now₁ now₂ : ℤ) (e : PageEvent) (s : ConsumerState) (tx : String),
      e.transactionHash = some tx → tx ≠ "" →
        processEvent now₂ e (processEvent now₁ e s) = processEvent now₁ e s := by
  intro n₁ n₂ e s tx htx hne
  have hkeq : eventKey n₂ e = eventKey n₁ e := by
    simp [eventKey, jsOr, htx, hne]
  by_cases hmem : eventKey n₁ e ∈ s.seenEventIds
  · have h1 : processEvent n₁ e s = s := by
      simp [processEvent, hmem]
    rw [h1]
    simp [processEvent, hkeq, hmem]
  · have h1 : processEvent n₁ e s =
        applyEvent n₁ e { s with seenEventIds := eventKey n₁ e :: s.seenEventIds } := by
      simp [processEvent, hmem]
    rw [h1]
    have hseen : (applyEvent n₁ e
        { s with seenEventIds := eventKey n₁ e :: s.seenEventIds }).seenEventIds =
        eventKey n₁ e :: s.seenEventIds := by
      rw [applyEvent_seenEventIds]
    simp [processEvent, hkeq, hseen]

/-- Witness for C6: a refund event with transaction hash 0xabc
processed twice leaves the state of the first processing unchanged. -/
theorem c6_witness :
    ({ type := "refund", agentId := some "IceCo", timestamp := "t1",
       transactionHash := some "0xabc", amount := some 0.5 } :
        PageEvent).transactionHash = some "0xabc" ∧
    "0xabc" ≠ "" ∧
    processEvent 2
        { type := "refund", agentId := some "IceCo", timestamp := "t1",
          transactionHash := some "0xabc", amount := some 0.5 }
        (processEvent 1
          { type := "refund", agentId := some "IceCo", timestamp := "t1",
            transactionHash := some "0xabc", amount := some 0.5 }
          emptyConsumerState) =
      processEvent 1
        { type := "refund", agentId := some "IceCo", timestamp := "t1",
          transactionHash := some "0xabc", amount := some 0.5 }
        emptyConsumerState :=
  ⟨rfl, by decide,
   c6_dedup_with_txhash 1 2
     { type := "refund", agentId := some "IceCo", timestamp := "t1",
       transactionHash := some "0xabc", amount := some 0.5 }
     emptyConsumerState "0xabc" rfl (by decide)⟩

/-- Counterexample for C7 as stated: an ad_image_ready message (the
creative-ready lifecycle event, attributed to the winning agent IceCo)
renders one terminal log entry but lands only in the IceCo view; the
FizzUp view stays empty, so the creative-ready event is not replicated
into every party view. -/
theorem c7_counterexample :
    (splitLogs
        [{ id := "ad-image-ready-0", type := "ad_image_ready",
           agentId := some "IceCo", timestamp := "t9",
           imageUrl := some "/water-ad-demo.png" }]).2 = [] ∧
    (splitLogs
        [{ id := "ad-image-ready-0", type := "ad_image_ready",
           agentId := some "IceCo", timestamp := "t9",
           imageUrl := some "/water-ad-demo.png" }]).1.length = 1 := by
  constructor <;> rfl

/-- Claim C7 amended: the two per-party terminal views are exactly the
logs of the messages passing the per-party filters (filtering on the
brand of agentId); auction_ended messages pass both filters and are
replicated into both views; ad_image_ready messages pass a party
filter only when their agentId maps to that party brand. -/
theorem c7_party_views :
    (∀ msgs : List StreamingMessage,
      splitLogs msgs =
        ((msgs.filter (fun m => inIceCoView m)).flatMap messageToTerminalLog,
         (msgs.filter (fun m => inFizzUpView m)).flatMap messageToTerminalLog)) ∧
    (∀ m : StreamingMessage, m.type = "auction_ended" →
      inIceCoView m = true ∧ inFizzUpView m = true) ∧
    (∀ m : StreamingMessage, m.type = "ad_image_ready" →
      ((inFizzUpView m = true ↔ getBrandName (m.agentId.getD "") = "FizzUp") ∧
       (inIceCoView m = true ↔ getBrandName (m.agentId.getD "") = "IceCo"))) := by
  have hgo : ∀ (msgs : List StreamingMessage)
      (acc : List TerminalLog × List TerminalLog),
      msgs.foldl
        (fun acc msg =>
          let ice := if inIceCoView msg then acc.1 ++ messageToTerminalLog msg
                     else acc.1
          let fizz := if inFizzUpView msg then acc.2 ++ messageToTerminalLog msg
                      else acc.2
          (ice, fizz))
        acc =
      (acc.1 ++ (msgs.filter (fun m => inIceCoView m)).flatMap messageToTerminalLog,
       acc.2 ++ (msgs.filter (fun m => inFizzUpView m)).flatMap messageToTerminalLog) := by
    intro msgs
    induction msgs with
    | nil => intro acc; simp
    | cons m rest ih =>
        intro acc
        simp only [List.foldl_cons, ih, List.filter_cons]
        by_cases h1 : inIceCoView m <;> by_cases h2 : inFizzUpView m <;>
          simp [h1, h2]
  refine ⟨?_, ?_, ?_⟩
  · intro msgs
    unfold splitLogs
    rw [hgo msgs ([], [])]
    simp
  · intro m h
    constructor <;> simp [inIceCoView, inFizzUpView, h]
  · intro m h
    constructor <;> simp [inIceCoView, inFizzUpView, h]

/-- Witness for C7: a concrete auction_ended message passes both party
filters. -/
theorem c7_witness :
    inIceCoView
        { id := "auction-ended-0", type := "auction_ended", timestamp := "t8",
          winner := some "IceCo", finalBid := some 1.25 } = true ∧
    inFizzUpView
        { id := "auction-ended-0", type := "auction_ended", timestamp := "t8",
          winner := some "IceCo", finalBid := some 1.25 } = true :=
  c7_party_views.2.1
    { id := "auction-ended-0", type := "auction_ended", timestamp := "t8",
      winner := some "IceCo", finalBid := some 1.25 } rfl

/-- Counterexample for C10 as stated: the ad spot demo-spot-1 with no
stored auction record does not get the empty state; the route answers
with the fixed demo payload, whose currentBid is 1.25, not null. -/
theorem c10_counterexample :
    statusGET (some "demo-spot-1") none 600000 0 = .ok (demoStatusResponse 0) ∧
    (demoStatusResponse 0).currentBid ≠ none := by
  constructor
  · rfl
  · decide

/-- Claim C10 amended: a request without adSpotId gets the 400
validation error; for every adSpotId other than demo-spot-1 (which is
answered with fixed demo data regardless of any record), a missing
record yields the well-formed empty state (currentBid null, empty bid
history, auctionEnded false, winnerAdImage null); and every successful
response that carries a timeRemaining carries a non-negative one. -/
theorem c10_status_contract :
    (∀ (lookup : Option AdSpotRecord) (d now : ℤ),
      statusGET none lookup d now = .validationError 400) ∧
    (∀ (id : String) (d now : ℤ), id ≠ "demo-spot-1" →
      statusGET (some id) none d now = .ok (emptyStatusResponse id)) ∧
    (∀ (a : Option String) (lookup : Option AdSpotRecord) (d now : ℤ)
        (resp : StatusResponse) (t : ℤ),
      statusGET a lookup d now = .ok resp → resp.timeRemaining = some t →
        0 ≤ t) := by
  refine ⟨?_, ?_, ?_⟩
  · intro lookup d now
    rfl
  · intro id d now h
    simp [statusGET, h]
  · intro a lookup d now resp t hok ht
    cases a with
    | none => simp [statusGET] at hok
    | some id =>
        by_cases hd : id = "demo-spot-1"
        · simp only [statusGET, if_pos hd, StatusResult.ok.injEq] at hok
          rw [← hok] at ht
          simp [demoStatusResponse] at ht
          omega
        · cases lookup with
          | none =>
              simp only [statusGET, if_neg hd, StatusResult.ok.injEq] at hok
              rw [← hok] at ht
              simp [emptyStatusResponse] at ht
          | some r =>
              simp only [statusGET, if_neg hd, StatusResult.ok.injEq] at hok
              rw [← hok] at ht
              simp only [Option.some.injEq] at ht
              rw [← ht]
              exact le_max_left 0 _

/-- Witness for C10: a non-demo spot with no record gets the empty
state. -/
theorem c10_witness :
    "spot-42" ≠ "demo-spot-1" ∧
    statusGET (some "spot-42") none 600000 0 =
      .ok (emptyStatusResponse "spot-42") :=
  ⟨by decide, c10_status_contract.2.1 "spot-42" 600000 0 (by decide)⟩

end AdOps
